import Mathlib

/-!
Verification of the C/GMRES MPC benchmark examples (`cgmres` namespace).

The development shallowly embeds the parts of the repository that the
verified statements are about:

* the `Horizon` schedule of `cgmres/horizon.hpp` (constructor, `T(t)`,
  `reset(t0)`); the C++ `Scalar` (`double`) is modelled as `ℝ`;
* the generated optimal control problem classes
  `OCP_cartpoleExternalReference` and `OCP_hexacopter`
  (member fields, `synchronize()`, the raw-pointer evaluators
  `eval_f`, `eval_phix`, `eval_hx`, `eval_hu`, and the size-checked
  overloads of `OCP_hexacopter`);
* the Fischer-Burmeister transform of the solver core.

Raw C++ pointers (`const double*` / `double*`) are modelled as memory
functions `ℕ → ℝ`: an evaluator receives the input memories and the prior
contents of its output buffer and returns the new contents of the output
buffer, leaving every cell it does not write unchanged.  A method that
throws `std::invalid_argument` is modelled as returning
`Except String`, with the error branch producing no output buffer at all
(nothing is written before the throw).
-/

noncomputable section

namespace cgmres

/-- The horizon schedule of `cgmres/horizon.hpp`.  Fields are the data
members `Tf_`, `alpha_`, `t0_`, `time_varying_length_` of class
`Horizon`. -/
structure Horizon where
  Tf_ : ℝ
  alpha_ : ℝ
  t0_ : ℝ
  time_varying_length_ : Bool

/-- The validating constructor `Horizon(Tf, alpha=0.0, t0=0.0)`: it throws
`std::invalid_argument` when `Tf <= 0.0`, otherwise it stores the three
scalars and sets `time_varying_length_ = (alpha > 0.0)`. -/
def Horizon.construct (Tf : ℝ) (alpha : ℝ := 0) (t0 : ℝ := 0) :
    Except String Horizon :=
  if Tf ≤ 0 then
    Except.error "[Horizon]: Tf must be positive!"
  else
    Except.ok ⟨Tf, alpha, t0, decide (0 < alpha)⟩

/-- The defaulted constructor `Horizon() = default`: it performs no
validation and no initialization, so all four data members hold
indeterminate values.  The indeterminate contents are modelled by taking
them as arbitrary parameters. -/
def Horizon.defaultCtor (Tf alpha t0 : ℝ) (tv : Bool) : Horizon :=
  ⟨Tf, alpha, t0, tv⟩

/-- `Horizon::T(t)`: when `time_varying_length_` holds it returns
`Tf_ * (1.0 - exp(-alpha_ * (t - t0_)))`, otherwise it returns `Tf_`. -/
def Horizon.T (h : Horizon) (t : ℝ) : ℝ :=
  if h.time_varying_length_ then
    h.Tf_ * (1 - Real.exp (-h.alpha_ * (t - h.t0_)))
  else
    h.Tf_

/-- `Horizon::reset(t0)`: assigns the member `t0_` and nothing else. -/
def Horizon.reset (h : Horizon) (t0 : ℝ) : Horizon :=
  { h with t0_ := t0 }

/-- `OCP_cartpoleExternalReference::ExternalReference`: the externally held
reference record, holding the commanded cart position. -/
structure ExternalReference where
  cart_position : ℝ

/-- The data members of class `OCP_cartpoleExternalReference`
(`examples/cpp/cartpole_external_reference/ocp.hpp`).  Arrays
`std::array<double, n>` are modelled as `Fin n → ℝ`; the
`std::shared_ptr<ExternalReference>` is modelled as
`Option ExternalReference` (`none` is the null pointer, `some` carries
the contents of the pointee).  The `static constexpr` member `ubound_indices`
is a class-level constant, not per-instance state, and is declared
separately below. -/
structure OCP_cartpoleExternalReference where
  m_c : ℝ
  m_p : ℝ
  l : ℝ
  g : ℝ
  q : Fin 4 → ℝ
  q_terminal : Fin 4 → ℝ
  x_ref : Fin 4 → ℝ
  r : Fin 1 → ℝ
  umin : Fin 1 → ℝ
  umax : Fin 1 → ℝ
  dummy_weight : Fin 1 → ℝ
  external_reference : Option ExternalReference

namespace OCP_cartpoleExternalReference

/-- `static constexpr std::array<int, nub> ubound_indices = {0};`. -/
def ubound_indices : Fin 1 → ℕ := ![0]

/-- A default-constructed `OCP_cartpoleExternalReference`: every member
takes its in-class initializer; `external_reference` starts as the null
pointer. -/
def init : OCP_cartpoleExternalReference where
  m_c := 2
  m_p := 0.2
  l := 0.5
  g := 9.80665
  q := ![2.5, 10, 0.01, 0.01]
  q_terminal := ![2.5, 10, 0.01, 0.01]
  x_ref := ![0, Real.pi, 0, 0]
  r := ![1]
  umin := ![-15.0]
  umax := ![15.0]
  dummy_weight := ![0.1]
  external_reference := none

/-- `synchronize()`: when `external_reference` is not null, assigns
`x_ref[0] = external_reference->cart_position`; otherwise does
nothing. -/
def synchronize (o : OCP_cartpoleExternalReference) :
    OCP_cartpoleExternalReference :=
  match o.external_reference with
  | none => o
  | some ref => { o with x_ref := Function.update o.x_ref 0 ref.cart_position }

/-- Body of the cartpole `eval_f(t, x, u, dx)` (array cells it writes). -/
def eval_f_core (o : OCP_cartpoleExternalReference) (t : ℝ)
    (x : Fin 4 → ℝ) (u : Fin 1 → ℝ) : Fin 4 → ℝ :=
  let x0 := Real.sin (x 1)
  let x1 := 1 / (o.m_c + o.m_p * x0 ^ 2)
  let x2 := Real.cos (x 1)
  let x3 := o.l * (x 1) ^ 2
  let x4 := o.m_p * x0
  fun i => match i with
  | ⟨0, _⟩ => x 2
  | ⟨1, _⟩ => x 3
  | ⟨2, _⟩ => x1 * (u 0 + x4 * (o.g * x2 + x3))
  | ⟨3, _⟩ => x1 * (-o.g * x0 * (o.m_c + o.m_p) - u 0 * x2 - x2 * x3 * x4) / o.l
  | ⟨n + 4, hn⟩ => absurd hn (by omega)

/-- The cartpole `eval_f(t, x, u, dx)` on raw pointers: writes
`dx[0..3]` and touches nothing else. -/
def eval_f (o : OCP_cartpoleExternalReference) (t : ℝ)
    (x u dx : ℕ → ℝ) : ℕ → ℝ :=
  fun i =>
    if hi : i < 4 then
      o.eval_f_core t (fun j => x j.val) (fun j => u j.val) ⟨i, hi⟩
    else dx i

/-- Body of the cartpole `eval_phix(t, x, phix)`. -/
def eval_phix_core (o : OCP_cartpoleExternalReference) (t : ℝ)
    (x : Fin 4 → ℝ) : Fin 4 → ℝ :=
  fun i => match i with
  | ⟨0, _⟩ => (1/2) * o.q_terminal 0 * (2 * x 0 - 2 * o.x_ref 0)
  | ⟨1, _⟩ => (1/2) * o.q_terminal 1 * (2 * x 1 - 2 * o.x_ref 1)
  | ⟨2, _⟩ => (1/2) * o.q_terminal 2 * (2 * x 2 - 2 * o.x_ref 2)
  | ⟨3, _⟩ => (1/2) * o.q_terminal 3 * (2 * x 3 - 2 * o.x_ref 3)
  | ⟨n + 4, hn⟩ => absurd hn (by omega)

/-- The cartpole `eval_phix(t, x, phix)` on raw pointers: writes
`phix[0..3]` and touches nothing else. -/
def eval_phix (o : OCP_cartpoleExternalReference) (t : ℝ)
    (x phix : ℕ → ℝ) : ℕ → ℝ :=
  fun i =>
    if hi : i < 4 then o.eval_phix_core t (fun j => x j.val) ⟨i, hi⟩
    else phix i

/-- Body of the cartpole `eval_hx(t, x, u, lmd, hx)`. -/
def eval_hx_core (o : OCP_cartpoleExternalReference) (t : ℝ)
    (x : Fin 4 → ℝ) (u : Fin 1 → ℝ) (lmd : Fin 4 → ℝ) : Fin 4 → ℝ :=
  let x0 := 2 * x 1
  let x1 := Real.sin (x 1)
  let x2 := Real.cos (x 1)
  let x3 := o.g * x2
  let x4 := (x 1) ^ 2
  let x5 := o.l * x4
  let x6 := o.m_p * (x3 + x5)
  let x7 := x1 ^ 2
  let x8 := o.m_c + o.m_p * x7
  let x9 := o.m_p * x1
  let x10 := x2 * x9
  let x11 := 2 * x10 / x8 ^ 2
  let x12 := 1 / x8
  let x13 := o.g * x1
  let x14 := o.m_c + o.m_p
  let x15 := lmd 3 / o.l
  fun i => match i with
  | ⟨0, _⟩ => (1/2) * o.q 0 * (2 * x 0 - 2 * o.x_ref 0)
  | ⟨1, _⟩ =>
      -lmd 2 * x11 * (u 0 + x1 * x6) +
        lmd 2 * x12 * (x2 * x6 + x9 * (2 * o.l * x 1 - x13)) +
        (1/2) * o.q 1 * (x0 - 2 * o.x_ref 1) -
        x11 * x15 * (-u 0 * x2 - x10 * x5 - x13 * x14) +
        x12 * x15 * (o.l * o.m_p * x4 * x7 - o.l * x0 * x10 -
          o.m_p * x2 ^ 2 * x5 + u 0 * x1 - x14 * x3)
  | ⟨2, _⟩ => lmd 0 + (1/2) * o.q 2 * (2 * x 2 - 2 * o.x_ref 2)
  | ⟨3, _⟩ => lmd 1 + (1/2) * o.q 3 * (2 * x 3 - 2 * o.x_ref 3)
  | ⟨n + 4, hn⟩ => absurd hn (by omega)

/-- The cartpole `eval_hx(t, x, u, lmd, hx)` on raw pointers: writes
`hx[0..3]` and touches nothing else. -/
def eval_hx (o : OCP_cartpoleExternalReference) (t : ℝ)
    (x u lmd hx : ℕ → ℝ) : ℕ → ℝ :=
  fun i =>
    if hi : i < 4 then
      o.eval_hx_core t (fun j => x j.val) (fun j => u j.val)
        (fun j => lmd j.val) ⟨i, hi⟩
    else hx i

/-- Body of the cartpole `eval_hu(t, x, u, lmd, hu)`. -/
def eval_hu_core (o : OCP_cartpoleExternalReference) (t : ℝ)
    (x : Fin 4 → ℝ) (u : Fin 1 → ℝ) (lmd : Fin 4 → ℝ) : Fin 1 → ℝ :=
  let x0 := 1 / (o.m_c + o.m_p * Real.sin (x 1) ^ 2)
  fun i => match i with
  | ⟨0, _⟩ => lmd 2 * x0 + o.r 0 * u 0 - lmd 3 * x0 * Real.cos (x 1) / o.l
  | ⟨n + 1, hn⟩ => absurd hn (by omega)

/-- The cartpole `eval_hu(t, x, u, lmd, hu)` on raw pointers: writes
`hu[0]` and touches nothing else. -/
def eval_hu (o : OCP_cartpoleExternalReference) (t : ℝ)
    (x u lmd hu : ℕ → ℝ) : ℕ → ℝ :=
  fun i =>
    if hi : i < 1 then
      o.eval_hu_core t (fun j => x j.val) (fun j => u j.val)
        (fun j => lmd j.val) ⟨i, hi⟩
    else hu i

end OCP_cartpoleExternalReference

/-- The data members of class `OCP_hexacopter`
(`examples/cpp/hexacopter/ocp.hpp`).  Arrays `std::array<double, n>` are
modelled as `Fin n → ℝ`.  The dimensional constants of the class are
`nx = 12`, `nu = 6`, `nc = 0`, `nh = 0`, `nuc = nu + nc = 6`, `nub = 6`;
`ubound_indices` is `static constexpr` and declared separately below. -/
structure OCP_hexacopter where
  m : ℝ
  l : ℝ
  k : ℝ
  Ixx : ℝ
  Iyy : ℝ
  Izz : ℝ
  gamma : ℝ
  g : ℝ
  z_ref : ℝ
  q : Fin 12 → ℝ
  q_terminal : Fin 12 → ℝ
  r : Fin 6 → ℝ
  umin : Fin 6 → ℝ
  umax : Fin 6 → ℝ
  dummy_weight : Fin 6 → ℝ

namespace OCP_hexacopter

/-- `static constexpr int nx = 12`. -/
def nx : ℕ := 12

/-- `static constexpr int nu = 6`. -/
def nu : ℕ := 6

/-- `static constexpr int nc = 0`. -/
def nc : ℕ := 0

/-- `static constexpr int nuc = nu + nc`. -/
def nuc : ℕ := nu + nc

/-- `static constexpr std::array<int, nub> ubound_indices = {0, 1, 2, 3, 4, 5};`. -/
def ubound_indices : Fin 6 → ℕ := ![0, 1, 2, 3, 4, 5]

/-- A default-constructed `OCP_hexacopter`: every member takes its
in-class initializer. -/
def init : OCP_hexacopter where
  m := 1.44
  l := 0.23
  k := 1.6e-9
  Ixx := 0.0348
  Iyy := 0.0459
  Izz := 0.0977
  gamma := 0.01
  g := 9.80665
  z_ref := 5
  q := ![1, 1, 1, 0.01, 0.01, 0, 0.01, 0.01, 0.01, 0.1, 0.1, 0.001]
  q_terminal := ![1, 1, 1, 0.01, 0.01, 0, 0.01, 0.01, 0.01, 0.1, 0.1, 0.001]
  r := ![0.01, 0.01, 0.01, 0.01, 0.01, 0.01]
  umin := ![0.144, 0.144, 0.144, 0.144, 0.144, 0.144]
  umax := ![6.0, 6.0, 6.0, 6.0, 6.0, 6.0]
  dummy_weight := ![0.1, 0.1, 0.1, 0.1, 0.1, 0.1]

/-- `synchronize()` of `OCP_hexacopter`: the body is empty. -/
def synchronize (o : OCP_hexacopter) : OCP_hexacopter := o

/-- Body of the hexacopter `eval_f(t, x, u, dx)` (array cells it
writes). -/
def eval_f_core (o : OCP_hexacopter) (t : ℝ)
    (x : Fin 12 → ℝ) (u : Fin 6 → ℝ) : Fin 12 → ℝ :=
  let x0 := Real.sin (x 3)
  let x1 := Real.sin (x 5)
  let x2 := Real.cos (x 5)
  let x3 := Real.cos (x 3)
  let x4 := Real.sin (x 4)
  let x5 := 1 / o.m
  let x6 := u 0 + u 2 + u 4
  let x7 := u 1 + u 3 + u 5 + x6
  let x8 := x5 * x7
  let x9 := 1 / o.Ixx
  let x10 := -o.Izz
  let x11 := (1/2) * u 0
  let x12 := 1 / o.Iyy
  let x13 := Real.sqrt 3
  let x14 := 1 / o.Izz
  fun i => match i with
  | ⟨0, _⟩ => x 6
  | ⟨1, _⟩ => x 7
  | ⟨2, _⟩ => x 8
  | ⟨3, _⟩ => x 9
  | ⟨4, _⟩ => x 10
  | ⟨5, _⟩ => x 11
  | ⟨6, _⟩ => x8 * (x0 * x1 + x2 * x3 * x4)
  | ⟨7, _⟩ => x8 * (-x0 * x2 + x1 * x3 * x4)
  | ⟨8, _⟩ => -o.g + x3 * x5 * x7 * Real.cos (x 4)
  | ⟨9, _⟩ => o.l * x9 * (-u 1 - (1/2) * u 2 + (1/2) * u 3 + u 4 +
      (1/2) * u 5 - x11) + x9 * x 10 * x 11 * (o.Iyy + x10)
  | ⟨10, _⟩ => o.l * x12 * ((1/2) * u 2 * x13 + (1/2) * u 3 * x13 -
      (1/2) * u 5 * x13 - x11 * x13) + x12 * x 11 * x 9 * (-o.Ixx - x10)
  | ⟨11, _⟩ => x14 * x 10 * x 9 * (o.Ixx - o.Iyy) +
      x14 * (-o.gamma * x 11 + o.k * (u 1 + u 3 + u 5 - x6))
  | ⟨n + 12, hn⟩ => absurd hn (by omega)

/-- The hexacopter `eval_f(t, x, u, dx)` on raw pointers: writes
`dx[0..11]` and touches nothing else. -/
def eval_f (o : OCP_hexacopter) (t : ℝ) (x u dx : ℕ → ℝ) : ℕ → ℝ :=
  fun i =>
    if hi : i < 12 then
      o.eval_f_core t (fun j => x j.val) (fun j => u j.val) ⟨i, hi⟩
    else dx i

/-- Body of the hexacopter `eval_phix(t, x, phix)`. -/
def eval_phix_core (o : OCP_hexacopter) (t : ℝ)
    (x : Fin 12 → ℝ) : Fin 12 → ℝ :=
  let x0 := 2 * t
  let x1 := Real.sin x0
  let x2 := Real.cos x0
  fun i => match i with
  | ⟨0, _⟩ => (1/2) * o.q_terminal 0 * (-2 * x1 + 2 * x 0)
  | ⟨1, _⟩ => (1/2) * o.q_terminal 1 * (2 * x2 + 2 * x 1 - 2)
  | ⟨2, _⟩ => (1/2) * o.q_terminal 2 * (2 * x 2 - 2 * o.z_ref - 4 * Real.sin t)
  | ⟨3, _⟩ => o.q_terminal 3 * x 3
  | ⟨4, _⟩ => o.q_terminal 4 * x 4
  | ⟨5, _⟩ => o.q_terminal 5 * x 5
  | ⟨6, _⟩ => (1/2) * o.q_terminal 6 * (-4 * x2 + 2 * x 6)
  | ⟨7, _⟩ => (1/2) * o.q_terminal 7 * (-4 * x1 + 2 * x 7)
  | ⟨8, _⟩ => (1/2) * o.q_terminal 8 * (2 * x 8 - 4 * Real.cos t)
  | ⟨9, _⟩ => o.q_terminal 9 * x 9
  | ⟨10, _⟩ => o.q_terminal 10 * x 10
  | ⟨11, _⟩ => o.q_terminal 11 * x 11
  | ⟨n + 12, hn⟩ => absurd hn (by omega)

/-- The hexacopter `eval_phix(t, x, phix)` on raw pointers: writes
`phix[0..11]` and touches nothing else. -/
def eval_phix (o : OCP_hexacopter) (t : ℝ) (x phix : ℕ → ℝ) : ℕ → ℝ :=
  fun i =>
    if hi : i < 12 then o.eval_phix_core t (fun j => x j.val) ⟨i, hi⟩
    else phix i

/-- Body of the hexacopter `eval_hx(t, x, u, lmd, hx)`; `u` is the
concatenation `uc` of the control input and equality multipliers
(`nuc = 6` entries). -/
def eval_hx_core (o : OCP_hexacopter) (t : ℝ)
    (x : Fin 12 → ℝ) (u : Fin 6 → ℝ) (lmd : Fin 12 → ℝ) : Fin 12 → ℝ :=
  let x0 := 2 * t
  let x1 := Real.sin x0
  let x2 := Real.cos x0
  let x3 := Real.sin (x 3)
  let x4 := Real.cos (x 4)
  let x5 := (u 0 + u 1 + u 2 + u 3 + u 4 + u 5) / o.m
  let x6 := lmd 8 * x5
  let x7 := Real.sin (x 5)
  let x8 := Real.cos (x 3)
  let x9 := Real.sin (x 4)
  let x10 := Real.cos (x 5)
  let x11 := x10 * x3
  let x12 := lmd 6 * x5
  let x13 := x10 * x8
  let x14 := x3 * x7
  let x15 := lmd 7 * x5
  let x16 := x7 * x8
  let x17 := -o.Izz
  let x18 := lmd 10 * (-o.Ixx - x17) / o.Iyy
  let x19 := lmd 11 / o.Izz
  let x20 := x19 * (o.Ixx - o.Iyy)
  let x21 := lmd 9 * (o.Iyy + x17) / o.Ixx
  fun i => match i with
  | ⟨0, _⟩ => (1/2) * o.q 0 * (-2 * x1 + 2 * x 0)
  | ⟨1, _⟩ => (1/2) * o.q 1 * (2 * x2 + 2 * x 1 - 2)
  | ⟨2, _⟩ => (1/2) * o.q 2 * (2 * x 2 - 2 * o.z_ref - 4 * Real.sin t)
  | ⟨3, _⟩ => o.q 3 * x 3 + x12 * (-x11 * x9 + x7 * x8) +
      x15 * (-x13 - x14 * x9) - x3 * x4 * x6
  | ⟨4, _⟩ => o.q 4 * x 4 + x12 * x13 * x4 + x15 * x16 * x4 - x6 * x8 * x9
  | ⟨5, _⟩ => o.q 5 * x 5 + x12 * (x11 - x16 * x9) + x15 * (x13 * x9 + x14)
  | ⟨6, _⟩ => lmd 0 + (1/2) * o.q 6 * (-4 * x2 + 2 * x 6)
  | ⟨7, _⟩ => lmd 1 + (1/2) * o.q 7 * (-4 * x1 + 2 * x 7)
  | ⟨8, _⟩ => lmd 2 + (1/2) * o.q 8 * (2 * x 8 - 4 * Real.cos t)
  | ⟨9, _⟩ => lmd 3 + o.q 9 * x 9 + x18 * x 11 + x20 * x 10
  | ⟨10, _⟩ => lmd 4 + o.q 10 * x 10 + x20 * x 9 + x21 * x 11
  | ⟨11, _⟩ => -o.gamma * x19 + lmd 5 + o.q 11 * x 11 + x18 * x 9 + x21 * x 10
  | ⟨n + 12, hn⟩ => absurd hn (by omega)

/-- The hexacopter `eval_hx(t, x, u, lmd, hx)` on raw pointers: writes
`hx[0..11]` and touches nothing else. -/
def eval_hx (o : OCP_hexacopter) (t : ℝ) (x u lmd hx : ℕ → ℝ) : ℕ → ℝ :=
  fun i =>
    if hi : i < 12 then
      o.eval_hx_core t (fun j => x j.val) (fun j => u j.val)
        (fun j => lmd j.val) ⟨i, hi⟩
    else hx i

/-- Body of the hexacopter `eval_hu(t, x, u, lmd, hu)`. -/
def eval_hu_core (o : OCP_hexacopter) (t : ℝ)
    (x : Fin 12 → ℝ) (u : Fin 6 → ℝ) (lmd : Fin 12 → ℝ) : Fin 6 → ℝ :=
  let x0 := (1/3) * o.g * o.m
  let x1 := (1/2) * Real.sqrt 3 * o.l * lmd 10 / o.Iyy
  let x2 := -x1
  let x3 := o.l * lmd 9 / o.Ixx
  let x4 := (1/2) * x3
  let x5 := o.k * lmd 11 / o.Izz
  let x6 := 1 / o.m
  let x7 := Real.sin (x 3)
  let x8 := Real.sin (x 5)
  let x9 := Real.cos (x 5)
  let x10 := Real.cos (x 3)
  let x11 := Real.sin (x 4)
  let x12 := lmd 6 * x6 * (x10 * x11 * x9 + x7 * x8) +
    lmd 7 * x6 * (x10 * x11 * x8 - x7 * x9) +
    lmd 8 * x10 * x6 * Real.cos (x 4)
  let x13 := x12 - x5
  let x14 := x13 - x4
  let x15 := x12 + x5
  let x16 := x15 + x4
  fun i => match i with
  | ⟨0, _⟩ => (1/2) * o.r 0 * (2 * u 0 - x0) + x14 + x2
  | ⟨1, _⟩ => (1/2) * o.r 1 * (2 * u 1 - x0) + x15 - x3
  | ⟨2, _⟩ => (1/2) * o.r 2 * (2 * u 2 - x0) + x1 + x14
  | ⟨3, _⟩ => (1/2) * o.r 3 * (2 * u 3 - x0) + x1 + x16
  | ⟨4, _⟩ => (1/2) * o.r 4 * (2 * u 4 - x0) + x13 + x3
  | ⟨5, _⟩ => (1/2) * o.r 5 * (2 * u 5 - x0) + x16 + x2
  | ⟨n + 6, hn⟩ => absurd hn (by omega)

/-- The hexacopter `eval_hu(t, x, u, lmd, hu)` on raw pointers: writes
`hu[0..5]` and touches nothing else. -/
def eval_hu (o : OCP_hexacopter) (t : ℝ) (x u lmd hu : ℕ → ℝ) : ℕ → ℝ :=
  fun i =>
    if hi : i < 6 then
      o.eval_hu_core t (fun j => x j.val) (fun j => u j.val)
        (fun j => lmd j.val) ⟨i, hi⟩
    else hu i

/-- The size-checked overload of the hexacopter `eval_f` (Eigen vectors
modelled as `List ℝ`): it throws `std::invalid_argument` unless
`x.size() = nx`, `u.size() = nu` and `dx.size() = nx`, and otherwise
delegates to the raw-pointer `eval_f` on the data of the vectors. -/
def eval_f_checked (o : OCP_hexacopter) (t : ℝ) (x u dx : List ℝ) :
    Except String (List ℝ) :=
  if x.length ≠ 12 then Except.error "[OCP]: x.size() must be 12"
  else if u.length ≠ 6 then Except.error "[OCP]: u.size() must be 6"
  else if dx.length ≠ 12 then Except.error "[OCP]: dx.size() must be 12"
  else Except.ok (List.ofFn fun i : Fin 12 =>
    o.eval_f t (fun j => x.getD j 0) (fun j => u.getD j 0)
      (fun j => dx.getD j 0) i.val)

/-- The size-checked overload of the hexacopter `eval_hx` (Eigen vectors
modelled as `List ℝ`).  The source guards are transcribed exactly: the
first three compare `x`, `uc`, `lmd` against `nx = 12`, `nuc = 6`,
`nx = 12`, but the fourth compares `hx.size()` against `nuc = 6` while
its exception message (and the documentation, which says the size must be
`nx`) prints `nx = 12`.  On success it delegates to the raw-pointer
`eval_hx`, which writes `hx[0..11]` (past the end of a `nuc`-sized
buffer). -/
def eval_hx_checked (o : OCP_hexacopter) (t : ℝ) (x uc lmd hx : List ℝ) :
    Except String (List ℝ) :=
  if x.length ≠ 12 then Except.error "[OCP]: x.size() must be 12"
  else if uc.length ≠ 6 then Except.error "[OCP]: uc.size() must be 6"
  else if lmd.length ≠ 12 then Except.error "[OCP]: lmd.size() must be 12"
  else if hx.length ≠ 6 then Except.error "[OCP]: hx.size() must be 12"
  else Except.ok (List.ofFn fun i : Fin 12 =>
    o.eval_hx t (fun j => x.getD j 0) (fun j => uc.getD j 0)
      (fun j => lmd.getD j 0) (fun j => hx.getD j 0) i.val)

end OCP_hexacopter

/-- Modelled from the spec: the Fischer-Burmeister transform of the solver
core (`cgmres/detail` is not under the staged sources of the repository):
`FB(a, b; eps) = a + b - sqrt(a^2 + b^2 + eps)`. -/
def FB (a b eps : ℝ) : ℝ :=
  a + b - Real.sqrt (a ^ 2 + b ^ 2 + eps)

end cgmres

open cgmres

/-- The validating constructor succeeds on every positive `Tf`, producing
exactly the record it stores. -/
theorem Horizon.construct_eq_ok (Tf alpha t0 : ℝ) (h : 0 < Tf) :
    Horizon.construct Tf alpha t0 =
      Except.ok ⟨Tf, alpha, t0, decide (0 < alpha)⟩ := by
  unfold Horizon.construct
  rw [if_neg (not_le.mpr h)]

/-- Inversion for the validating constructor: a successful construction
forces `0 < Tf` and determines every field of the result. -/
theorem Horizon.construct_ok_iff (Tf alpha t0 : ℝ) (h : Horizon) :
    Horizon.construct Tf alpha t0 = Except.ok h ↔
      0 < Tf ∧ h = ⟨Tf, alpha, t0, decide (0 < alpha)⟩ := by
  unfold Horizon.construct
  by_cases hTf : Tf ≤ 0
  · rw [if_pos hTf]
    simp only [not_lt.mpr hTf, false_and, iff_false]
    intro hcontra
    exact Except.noConfusion hcontra
  · rw [if_neg hTf]
    constructor
    · intro hok
      exact ⟨not_le.mp hTf, (Except.ok.injEq _ _).mp hok |>.symm⟩
    · intro ⟨_, hh⟩
      rw [hh]

/-- Claim C1: for every `Horizon(Tf, alpha, t0)` with `Tf > 0` and every
time `t`, `T(t)` returns `Tf * (1 - exp(-alpha * (t - t0)))` when
`alpha > 0` and returns `Tf` otherwise; for `Tf = 2`, `alpha = 1`,
`t0 = 0` this gives `T 0 = 0`, `T 1 = 2 * (1 - exp (-1))`, and `T`
tends to `2` at infinity. -/
theorem Horizon.T_formula :
    (∀ (Tf alpha t0 t : ℝ), 0 < Tf →
      ∃ h, Horizon.construct Tf alpha t0 = Except.ok h ∧
        (0 < alpha → h.T t = Tf * (1 - Real.exp (-alpha * (t - t0)))) ∧
        (alpha ≤ 0 → h.T t = Tf)) ∧
    (∀ h, Horizon.construct 2 1 0 = Except.ok h →
      h.T 0 = 0 ∧ h.T 1 = 2 * (1 - Real.exp (-1)) ∧
      Filter.Tendsto h.T Filter.atTop (nhds 2)) := by
  constructor
  · intro Tf alpha t0 t hTf
    refine ⟨⟨Tf, alpha, t0, decide (0 < alpha)⟩,
      Horizon.construct_eq_ok Tf alpha t0 hTf, ?_, ?_⟩
    · intro halpha
      unfold Horizon.T
      rw [if_pos (decide_eq_true halpha)]
    · intro halpha
      unfold Horizon.T
      rw [if_neg]
      simp only [decide_eq_true_eq, not_lt]
      exact halpha
  · intro h hok
    obtain ⟨-, rfl⟩ := (Horizon.construct_ok_iff 2 1 0 h).mp hok
    rw [show decide ((0:ℝ) < 1) = true from decide_eq_true one_pos]
    refine ⟨?_, ?_, ?_⟩
    · unfold Horizon.T
      norm_num
    · unfold Horizon.T
      norm_num
    · have hT : (Horizon.T ⟨2, 1, 0, true⟩) =
          fun t : ℝ => 2 * (1 - Real.exp (-t)) := by
        funext t
        unfold Horizon.T
        norm_num
      rw [hT]
      have hexp : Filter.Tendsto (fun t : ℝ => Real.exp (-t))
          Filter.atTop (nhds 0) := Real.tendsto_exp_neg_atTop_nhds_zero
      have := (Filter.Tendsto.const_sub (1:ℝ) hexp).const_mul (2:ℝ)
      simpa using this

/-- Claim C3: for a horizon obtained from the validating constructor, if
`alpha > 0` then `T` is monotone non-decreasing on `t ≥ t0`, satisfies
`0 ≤ T t ≤ Tf` there, and `T t0 = 0`; if `alpha ≤ 0` then `T t = Tf`
everywhere. -/
theorem Horizon.T_contract (Tf alpha t0 : ℝ) (h : Horizon)
    (hok : Horizon.construct Tf alpha t0 = Except.ok h) :
    (0 < alpha →
      (∀ t1 t2, t0 ≤ t1 → t1 ≤ t2 → h.T t1 ≤ h.T t2) ∧
      (∀ t, t0 ≤ t → 0 ≤ h.T t ∧ h.T t ≤ Tf) ∧
      h.T t0 = 0) ∧
    (alpha ≤ 0 → ∀ t, h.T t = Tf) := by
  obtain ⟨hTf, rfl⟩ := (Horizon.construct_ok_iff Tf alpha t0 h).mp hok
  constructor
  · intro halpha
    have hflag : decide (0 < alpha) = true := decide_eq_true halpha
    have hTdef : ∀ t, Horizon.T ⟨Tf, alpha, t0, decide (0 < alpha)⟩ t =
        Tf * (1 - Real.exp (-alpha * (t - t0))) := by
      intro t
      unfold Horizon.T
      rw [if_pos hflag]
    refine ⟨?_, ?_, ?_⟩
    · intro t1 t2 ht1 ht12
      rw [hTdef, hTdef]
      have hexp : Real.exp (-alpha * (t2 - t0)) ≤
          Real.exp (-alpha * (t1 - t0)) := by
        apply Real.exp_le_exp.mpr
        nlinarith
      nlinarith
    · intro t ht
      rw [hTdef]
      have hle1 : Real.exp (-alpha * (t - t0)) ≤ 1 := by
        apply Real.exp_le_one_iff.mpr
        nlinarith
      have hpos : 0 < Real.exp (-alpha * (t - t0)) := Real.exp_pos _
      constructor
      · nlinarith
      · nlinarith
    · rw [hTdef]
      simp
  · intro halpha t
    unfold Horizon.T
    rw [if_neg]
    simp only [decide_eq_true_eq, not_lt]
    exact halpha

/-- Claim C3, witness: the contract instantiated at the horizon
`Horizon(1, 1, 0)`. -/
theorem Horizon.T_contract_witness :
    (0 < (1:ℝ) →
      (∀ t1 t2, (0:ℝ) ≤ t1 → t1 ≤ t2 →
        Horizon.T ⟨1, 1, 0, true⟩ t1 ≤ Horizon.T ⟨1, 1, 0, true⟩ t2) ∧
      (∀ t, (0:ℝ) ≤ t → 0 ≤ Horizon.T ⟨1, 1, 0, true⟩ t ∧
        Horizon.T ⟨1, 1, 0, true⟩ t ≤ 1) ∧
      Horizon.T ⟨1, 1, 0, true⟩ 0 = 0) ∧
    ((1:ℝ) ≤ 0 → ∀ t, Horizon.T ⟨1, 1, 0, true⟩ t = 1) := by
  have hok : Horizon.construct 1 1 0 = Except.ok ⟨1, 1, 0, true⟩ := by
    rw [Horizon.construct_eq_ok 1 1 0 one_pos,
      decide_eq_true (show (0:ℝ) < 1 from one_pos)]
  exact Horizon.T_contract 1 1 0 ⟨1, 1, 0, true⟩ hok

/-- Claim C4, counterexample: the class also has the defaulted constructor
`Horizon() = default`, which validates nothing and leaves the members
indeterminate; an instance obtained from it with indeterminate contents
equal to zero does not satisfy `Tf_ > 0`.  This refutes the claim that
every instance obtainable from any constructor of the class has
`Tf_ > 0`. -/
theorem Horizon.defaultCtor_violates_Tf_pos :
    ¬ (0 < (Horizon.defaultCtor 0 0 0 false).Tf_) := by
  unfold Horizon.defaultCtor
  simp

/-- Claim C4, amended: the validating constructor `Horizon(Tf, alpha, t0)`
throws `std::invalid_argument` iff `Tf ≤ 0`; every instance obtained from
the validating constructor satisfies `Tf_ > 0`, and no operation changes
`Tf_` afterwards (`reset` keeps it; `T` is const). -/
theorem Horizon.construct_validates :
    ∀ (Tf alpha t0 : ℝ),
      ((∃ e, Horizon.construct Tf alpha t0 = Except.error e) ↔ Tf ≤ 0) ∧
      (∀ h, Horizon.construct Tf alpha t0 = Except.ok h →
        0 < h.Tf_ ∧ ∀ t0new, (h.reset t0new).Tf_ = h.Tf_) := by
  intro Tf alpha t0
  constructor
  · constructor
    · intro ⟨e, he⟩
      by_contra hTf
      rw [Horizon.construct_eq_ok Tf alpha t0 (not_le.mp hTf)] at he
      exact Except.noConfusion he
    · intro hTf
      refine ⟨"[Horizon]: Tf must be positive!", ?_⟩
      unfold Horizon.construct
      rw [if_pos hTf]
  · intro h hok
    obtain ⟨hTf, rfl⟩ := (Horizon.construct_ok_iff Tf alpha t0 h).mp hok
    exact ⟨hTf, fun _ => rfl⟩

/-- Claim C10: `reset(t0new)` assigns only the member `t0_` — `Tf_`,
`alpha_` and `time_varying_length_` are unchanged — and for a horizon
obtained from the validating constructor with `alpha > 0`,
`T(t0new) = 0` immediately after `reset(t0new)`. -/
theorem Horizon.reset_frame :
    (∀ (h : Horizon) (t0new : ℝ),
      (h.reset t0new).t0_ = t0new ∧
      (h.reset t0new).Tf_ = h.Tf_ ∧
      (h.reset t0new).alpha_ = h.alpha_ ∧
      (h.reset t0new).time_varying_length_ = h.time_varying_length_) ∧
    (∀ (Tf alpha t0 t0new : ℝ) (h : Horizon), 0 < alpha →
      Horizon.construct Tf alpha t0 = Except.ok h →
      (h.reset t0new).T t0new = 0) := by
  constructor
  · intro h t0new
    exact ⟨rfl, rfl, rfl, rfl⟩
  · intro Tf alpha t0 t0new h halpha hok
    obtain ⟨hTf, rfl⟩ := (Horizon.construct_ok_iff Tf alpha t0 h).mp hok
    unfold Horizon.reset Horizon.T
    rw [if_pos (decide_eq_true halpha)]
    simp

/-- Claim C6: `synchronize()` on `OCP_cartpoleExternalReference` modifies at
most `x_ref[0]`: when `external_reference` is non-null it sets `x_ref[0]`
to the `cart_position` of the pointee; every other field — `m_c`, `m_p`, `l`,
`g`, `q`, `q_terminal`, `x_ref[1..3]`, `r`, `umin`, `umax`,
`dummy_weight`, and `external_reference` itself — is unchanged
(`ubound_indices` is a `static constexpr` class constant and cannot
change). -/
theorem OCP_cartpoleExternalReference.synchronize_frame :
    ∀ (o : OCP_cartpoleExternalReference),
      ((o.synchronize).m_c = o.m_c ∧
       (o.synchronize).m_p = o.m_p ∧
       (o.synchronize).l = o.l ∧
       (o.synchronize).g = o.g ∧
       (o.synchronize).q = o.q ∧
       (o.synchronize).q_terminal = o.q_terminal ∧
       (o.synchronize).r = o.r ∧
       (o.synchronize).umin = o.umin ∧
       (o.synchronize).umax = o.umax ∧
       (o.synchronize).dummy_weight = o.dummy_weight ∧
       (o.synchronize).external_reference = o.external_reference) ∧
      (∀ i : Fin 4, i ≠ 0 → (o.synchronize).x_ref i = o.x_ref i) ∧
      (∀ ref, o.external_reference = some ref →
        (o.synchronize).x_ref 0 = ref.cart_position) ∧
      (o.external_reference = none → o.synchronize = o) := by
  intro o
  cases href : o.external_reference with
  | none =>
    unfold OCP_cartpoleExternalReference.synchronize
    rw [href]
    exact ⟨⟨rfl, rfl, rfl, rfl, rfl, rfl, rfl, rfl, rfl, rfl, href⟩,
      fun i _ => rfl, fun ref hr => absurd hr (by simp), fun _ => rfl⟩
  | some ref0 =>
    unfold OCP_cartpoleExternalReference.synchronize
    rw [href]
    refine ⟨⟨rfl, rfl, rfl, rfl, rfl, rfl, rfl, rfl, rfl, rfl, rfl⟩,
      ?_, ?_, ?_⟩
    · intro i hi
      exact Function.update_noteq hi _ _
    · intro ref hr
      cases hr
      show Function.update o.x_ref 0 ref0.cart_position 0 = ref0.cart_position
      simp
    · intro hn
      exact Option.noConfusion hn

/-- Claim C9: the `external_reference` pointer of a default-constructed
`OCP_cartpoleExternalReference` is null, and `synchronize()` on any
instance whose pointer is null never dereferences it and leaves the whole
OCP state unchanged. -/
theorem OCP_cartpoleExternalReference.synchronize_null_noop :
    OCP_cartpoleExternalReference.init.external_reference = none ∧
    ∀ o : OCP_cartpoleExternalReference,
      o.external_reference = none → o.synchronize = o := by
  constructor
  · rfl
  · intro o hnull
    unfold OCP_cartpoleExternalReference.synchronize
    rw [hnull]

/-- Claim C2: evidence at the documented call shape.  For the size-checked
`eval_hx` overload of `OCP_hexacopter`, a call with `x`, `uc`, `lmd`, `hx`
of the documented lengths `nx = 12`, `nuc = 6`, `nx = 12`, `nx = 12`
throws `std::invalid_argument` — the guard compares `hx.size()` against
`nuc = 6` although the parameter documentation and the exception message
itself give the size as `nx = 12` — while passing an undersized `hx` of
length `nuc = 6` is accepted by all four guards. -/
theorem OCP_hexacopter.eval_hx_checked_rejects_documented_sizes :
    OCP_hexacopter.init.eval_hx_checked 0 (List.replicate 12 0)
        (List.replicate 6 0) (List.replicate 12 0) (List.replicate 12 0) =
      Except.error "[OCP]: hx.size() must be 12" ∧
    ∃ out, OCP_hexacopter.init.eval_hx_checked 0 (List.replicate 12 0)
        (List.replicate 6 0) (List.replicate 12 0) (List.replicate 6 0) =
      Except.ok out := by
  exact ⟨rfl, ⟨_, rfl⟩⟩

/-- Claim C5: the size-checked `eval_f` overload of `OCP_hexacopter`
throws `std::invalid_argument` exactly when one of `x`, `u`, `dx` has a
length different from `nx = 12`, `nu = 6`, `nx = 12` (and then produces
no output), and under the size precondition it succeeds and stores into
`dx` exactly the values the raw-pointer `eval_f` body computes from the
same `t`, `x`, `u`. -/
theorem OCP_hexacopter.eval_f_checked_refines :
    ∀ (o : OCP_hexacopter) (t : ℝ) (x u dx : List ℝ),
      ((∃ e, o.eval_f_checked t x u dx = Except.error e) ↔
        ¬(x.length = 12 ∧ u.length = 6 ∧ dx.length = 12)) ∧
      (x.length = 12 → u.length = 6 → dx.length = 12 →
        ∃ dxout, o.eval_f_checked t x u dx = Except.ok dxout ∧
          dxout.length = 12 ∧
          ∀ i : Fin 12, dxout.getD i.val 0 =
            o.eval_f_core t (fun j => x.getD j.val 0)
              (fun j => u.getD j.val 0) i) := by
  intro o t x u dx
  unfold OCP_hexacopter.eval_f_checked
  split_ifs with h1 h2 h3
  · exact ⟨⟨fun _ hc => h1 hc.1, fun _ => ⟨_, rfl⟩⟩,
      fun hxl _ _ => absurd hxl h1⟩
  · exact ⟨⟨fun _ hc => h2 hc.2.1, fun _ => ⟨_, rfl⟩⟩,
      fun _ hul _ => absurd hul h2⟩
  · exact ⟨⟨fun _ hc => h3 hc.2.2, fun _ => ⟨_, rfl⟩⟩,
      fun _ _ hdxl => absurd hdxl h3⟩
  · constructor
    · constructor
      · rintro ⟨e, he⟩
        cases he
      · intro hc
        exact absurd ⟨not_not.mp h1, not_not.mp h2, not_not.mp h3⟩ hc
    · intro _ _ _
      refine ⟨_, rfl, by simp, ?_⟩
      intro i
      have hlen : i.val < (List.ofFn fun i : Fin 12 =>
          o.eval_f t (fun j => x.getD j 0) (fun j => u.getD j 0)
            (fun j => dx.getD j 0) i.val).length := by
        simp
      rw [List.getD_eq_getElem _ _ hlen, List.getElem_ofFn]
      simp [OCP_hexacopter.eval_f, i.isLt]

/-- Claim C7: with `FB(a, b; eps) = a + b - sqrt(a^2 + b^2 + eps)`, for
all real `a`, `b`: `FB(a, b; 0) = 0` iff `a ≥ 0`, `b ≥ 0` and
`a * b = 0`. -/
theorem FB_zero_iff :
    ∀ a b : ℝ, FB a b 0 = 0 ↔ (0 ≤ a ∧ 0 ≤ b ∧ a * b = 0) := by
  intro a b
  unfold FB
  rw [sub_eq_zero]
  constructor
  · intro h
    have hs : (0:ℝ) ≤ a ^ 2 + b ^ 2 + 0 := by positivity
    have hab : 0 ≤ a + b := h ▸ Real.sqrt_nonneg (a ^ 2 + b ^ 2 + 0)
    have hsq : (a + b) ^ 2 = a ^ 2 + b ^ 2 + 0 := by
      rw [h, Real.sq_sqrt hs]
    have hmul : a * b = 0 := by nlinarith
    rcases mul_eq_zero.mp hmul with ha | hb
    · exact ⟨le_of_eq ha.symm, by nlinarith, hmul⟩
    · exact ⟨by nlinarith, le_of_eq hb.symm, hmul⟩
  · rintro ⟨ha, hb, hab⟩
    have h2 : a ^ 2 + b ^ 2 + 0 = (a + b) ^ 2 := by
      have hexpand : (a + b) ^ 2 = a ^ 2 + 2 * (a * b) + b ^ 2 := by ring
      rw [hexpand, hab]
      ring
    rw [h2, Real.sqrt_sq (by linarith : 0 ≤ a + b)]

/-- Claim C8: every evaluator of the two example OCPs is deterministic and
pure.  Each evaluator is a mathematical function of the time, the OCP
fields and the contents of its input arrays (it is modelled as returning
only a new output buffer, so it mutates neither the OCP nor any input
array); two calls agreeing on the time, on the documented extent of every
input array, and on the OCP fields write identical contents to the output
array, and every output-buffer cell beyond the documented output extent is
left unchanged. -/
theorem OCP_evaluators_pure :
    (∀ (o : OCP_hexacopter) (t : ℝ) (xa xb ua ub dx : ℕ → ℝ),
      (∀ j, j < 12 → xa j = xb j) → (∀ j, j < 6 → ua j = ub j) →
      o.eval_f t xa ua dx = o.eval_f t xb ub dx) ∧
    (∀ (o : OCP_hexacopter) (t : ℝ) (x u dx : ℕ → ℝ) (i : ℕ), 12 ≤ i →
      o.eval_f t x u dx i = dx i) ∧
    (∀ (o : OCP_hexacopter) (t : ℝ) (xa xb phix : ℕ → ℝ),
      (∀ j, j < 12 → xa j = xb j) →
      o.eval_phix t xa phix = o.eval_phix t xb phix) ∧
    (∀ (o : OCP_hexacopter) (t : ℝ) (x phix : ℕ → ℝ) (i : ℕ), 12 ≤ i →
      o.eval_phix t x phix i = phix i) ∧
    (∀ (o : OCP_hexacopter) (t : ℝ) (xa xb ua ub la lb hx : ℕ → ℝ),
      (∀ j, j < 12 → xa j = xb j) → (∀ j, j < 6 → ua j = ub j) →
      (∀ j, j < 12 → la j = lb j) →
      o.eval_hx t xa ua la hx = o.eval_hx t xb ub lb hx) ∧
    (∀ (o : OCP_hexacopter) (t : ℝ) (x u lmd hx : ℕ → ℝ) (i : ℕ), 12 ≤ i →
      o.eval_hx t x u lmd hx i = hx i) ∧
    (∀ (o : OCP_hexacopter) (t : ℝ) (xa xb ua ub la lb hu : ℕ → ℝ),
      (∀ j, j < 12 → xa j = xb j) → (∀ j, j < 6 → ua j = ub j) →
      (∀ j, j < 12 → la j = lb j) →
      o.eval_hu t xa ua la hu = o.eval_hu t xb ub lb hu) ∧
    (∀ (o : OCP_hexacopter) (t : ℝ) (x u lmd hu : ℕ → ℝ) (i : ℕ), 6 ≤ i →
      o.eval_hu t x u lmd hu i = hu i) ∧
    (∀ (o : OCP_cartpoleExternalReference) (t : ℝ) (xa xb ua ub dx : ℕ → ℝ),
      (∀ j, j < 4 → xa j = xb j) → (∀ j, j < 1 → ua j = ub j) →
      o.eval_f t xa ua dx = o.eval_f t xb ub dx) ∧
    (∀ (o : OCP_cartpoleExternalReference) (t : ℝ) (x u dx : ℕ → ℝ) (i : ℕ),
      4 ≤ i → o.eval_f t x u dx i = dx i) ∧
    (∀ (o : OCP_cartpoleExternalReference) (t : ℝ) (xa xb phix : ℕ → ℝ),
      (∀ j, j < 4 → xa j = xb j) →
      o.eval_phix t xa phix = o.eval_phix t xb phix) ∧
    (∀ (o : OCP_cartpoleExternalReference) (t : ℝ) (x phix : ℕ → ℝ) (i : ℕ),
      4 ≤ i → o.eval_phix t x phix i = phix i) ∧
    (∀ (o : OCP_cartpoleExternalReference) (t : ℝ)
        (xa xb ua ub la lb hx : ℕ → ℝ),
      (∀ j, j < 4 → xa j = xb j) → (∀ j, j < 1 → ua j = ub j) →
      (∀ j, j < 4 → la j = lb j) →
      o.eval_hx t xa ua la hx = o.eval_hx t xb ub lb hx) ∧
    (∀ (o : OCP_cartpoleExternalReference) (t : ℝ) (x u lmd hx : ℕ → ℝ)
        (i : ℕ), 4 ≤ i → o.eval_hx t x u lmd hx i = hx i) ∧
    (∀ (o : OCP_cartpoleExternalReference) (t : ℝ)
        (xa xb ua ub la lb hu : ℕ → ℝ),
      (∀ j, j < 4 → xa j = xb j) → (∀ j, j < 1 → ua j = ub j) →
      (∀ j, j < 4 → la j = lb j) →
      o.eval_hu t xa ua la hu = o.eval_hu t xb ub lb hu) ∧
    (∀ (o : OCP_cartpoleExternalReference) (t : ℝ) (x u lmd hu : ℕ → ℝ)
        (i : ℕ), 1 ≤ i → o.eval_hu t x u lmd hu i = hu i) := by
  refine ⟨?_, ?_, ?_, ?_, ?_, ?_, ?_, ?_, ?_, ?_, ?_, ?_, ?_, ?_, ?_, ?_⟩
  · intro o t xa xb ua ub dx hx hu
    unfold OCP_hexacopter.eval_f
    rw [funext fun j : Fin 12 => hx j.val j.isLt,
      funext fun j : Fin 6 => hu j.val j.isLt]
  · intro o t x u dx i hi
    unfold OCP_hexacopter.eval_f
    rw [dif_neg (by omega)]
  · intro o t xa xb phix hx
    unfold OCP_hexacopter.eval_phix
    rw [funext fun j : Fin 12 => hx j.val j.isLt]
  · intro o t x phix i hi
    unfold OCP_hexacopter.eval_phix
    rw [dif_neg (by omega)]
  · intro o t xa xb ua ub la lb hxbuf hx hu hl
    unfold OCP_hexacopter.eval_hx
    rw [funext fun j : Fin 12 => hx j.val j.isLt,
      funext fun j : Fin 6 => hu j.val j.isLt,
      funext fun j : Fin 12 => hl j.val j.isLt]
  · intro o t x u lmd hxbuf i hi
    unfold OCP_hexacopter.eval_hx
    rw [dif_neg (by omega)]
  · intro o t xa xb ua ub la lb hubuf hx hu hl
    unfold OCP_hexacopter.eval_hu
    rw [funext fun j : Fin 12 => hx j.val j.isLt,
      funext fun j : Fin 6 => hu j.val j.isLt,
      funext fun j : Fin 12 => hl j.val j.isLt]
  · intro o t x u lmd hubuf i hi
    unfold OCP_hexacopter.eval_hu
    rw [dif_neg (by omega)]
  · intro o t xa xb ua ub dx hx hu
    unfold OCP_cartpoleExternalReference.eval_f
    rw [funext fun j : Fin 4 => hx j.val j.isLt,
      funext fun j : Fin 1 => hu j.val j.isLt]
  · intro o t x u dx i hi
    unfold OCP_cartpoleExternalReference.eval_f
    rw [dif_neg (by omega)]
  · intro o t xa xb phix hx
    unfold OCP_cartpoleExternalReference.eval_phix
    rw [funext fun j : Fin 4 => hx j.val j.isLt]
  · intro o t x phix i hi
    unfold OCP_cartpoleExternalReference.eval_phix
    rw [dif_neg (by omega)]
  · intro o t xa xb ua ub la lb hxbuf hx hu hl
    unfold OCP_cartpoleExternalReference.eval_hx
    rw [funext fun j : Fin 4 => hx j.val j.isLt,
      funext fun j : Fin 1 => hu j.val j.isLt,
      funext fun j : Fin 4 => hl j.val j.isLt]
  · intro o t x u lmd hxbuf i hi
    unfold OCP_cartpoleExternalReference.eval_hx
    rw [dif_neg (by omega)]
  · intro o t xa xb ua ub la lb hubuf hx hu hl
    unfold OCP_cartpoleExternalReference.eval_hu
    rw [funext fun j : Fin 4 => hx j.val j.isLt,
      funext fun j : Fin 1 => hu j.val j.isLt,
      funext fun j : Fin 4 => hl j.val j.isLt]
  · intro o t x u lmd hubuf i hi
    unfold OCP_cartpoleExternalReference.eval_hu
    rw [dif_neg (by omega)]
